import Mathlib

/-!
Verification of the build-and-publish pipeline of the
`simple-react-app-vite-docker` repository.

The repository's own executable logic is configuration: `vite.config.js`
(the `base` mount path and the dev-server settings), the multi-stage
Dockerfile, the nginx server block and the GitHub Pages workflow recorded
in the README and FAQ documents.  The build engine (Vite), the static
servers (nginx, GitHub Pages) and the dependency installer (npm) are
external tools, so their contracts are modelled from the specification,
while every configuration value is transcribed from the source files.
-/

set_option autoImplicit false

namespace ViteApp

/-- Paths, URLs and configuration strings are modelled as their character
sequences, so that reference and path reasoning is plain list reasoning. -/
abbrev Str := List Char

/-- The character sequence of a string literal. -/
def str (s : String) : Str := s.data

/-! ## Data model: assets, source graphs, build artifacts -/

/-- An internal asset of the source graph: a logical name (stem and
extension) and its content, as a sequence of bytes. -/
structure Asset where
  stem : Str
  ext : Str
  content : List Nat
deriving DecidableEq, Repr

/-- The set of entry documents and local assets a build invocation starts
from.  Immutable once formed. -/
structure SourceGraph where
  assets : List Asset
deriving DecidableEq, Repr

/-- Modelled from the spec: content hashing of an emitted asset.  The spec
requires a digest that is stable under content equality and changes under
any content modification; the model uses an injective encoding of the
content bytes. -/
def contentHash (content : List Nat) : Nat := Encodable.encode content

/-- Decimal rendering of a natural number, by fuel-bounded recursion so
that it evaluates by kernel reduction.  `natCharsAux fuel n` is the
big-endian decimal digit sequence of `n` provided `n ≤ fuel`. -/
def natCharsAux : Nat → Nat → List Char
  | 0, _ => []
  | _ + 1, 0 => []
  | fuel + 1, n + 1 =>
      natCharsAux fuel ((n + 1) / 10) ++ [Nat.digitChar ((n + 1) % 10)]

/-- Decimal rendering of a natural number (empty for 0, as in the digit
list of `Nat.digits`). -/
def natChars (n : Nat) : List Char := natCharsAux n n

/-- The emitted, content-hashed filename of an asset:
`<stem>-<hash><ext>`, as in the `index-*.js` names of the FAQ. -/
def hashedFileName (a : Asset) : Str :=
  a.stem ++ str "-" ++ natChars (contentHash a.content) ++ a.ext

/-- The artifact-relative path of an emitted asset: Vite places hashed
assets under the `assets/` directory of the output tree. -/
def hashedPath (a : Asset) : Str := str "assets/" ++ hashedFileName a

/-- The reference to an asset as rewritten into the entry document: the
mount-path prefix concatenated with the asset's emitted path. -/
def assetRef (p : Str) (a : Asset) : Str := p ++ hashedPath a

/-- The byte content of the rewritten entry document: it embeds every
asset reference as a static string. -/
def entryDocBytes (g : SourceGraph) (p : Str) : List Nat :=
  ((g.assets.map (assetRef p)).flatten).map Char.toNat

/-- The output of a production build: the references embedded in the
rewritten entry document, and the output directory tree as an association
list from artifact-relative path to file content. -/
structure BuildArtifact where
  entryRefs : List Str
  files : List (Str × List Nat)
deriving DecidableEq, Repr

/-- Modelled from the spec: the production `build(sourceGraph, mountPath)`
of the Build Engine (Vite, external to the repository).  It emits the
rewritten entry document at `index.html` and one content-hashed file per
asset, and rewrites every internal reference to
`mountPath ++ hashedPath`. -/
def build (g : SourceGraph) (p : Str) : BuildArtifact :=
  { entryRefs := g.assets.map (assetRef p)
  , files :=
      (str "index.html", entryDocBytes g p)
        :: g.assets.map (fun a => (hashedPath a, a.content)) }

/-! ## Shipped configuration, transcribed from `src/vite.config.js` -/

/-- The `base` value of `vite.config.js`: the mount path baked into every
emitted reference of a production build. -/
def viteBase : Str := str "/simple-react-app-vite-docker/"

/-- The `server` block of `vite.config.js`. -/
structure ServerConfig where
  host : Str
  port : Nat
  strictPort : Bool
  usePolling : Bool
deriving DecidableEq, Repr

/-- The shipped dev-server configuration of `vite.config.js`. -/
def viteServer : ServerConfig :=
  { host := str "0.0.0.0", port := 5173, strictPort := true, usePolling := true }

/-! ## Serving a build artifact -/

/-- Look a relative path up in an artifact tree; `none` is a missing
file. -/
def lookupFile : List (Str × List Nat) → Str → Option (List Nat)
  | [], _ => none
  | f :: fs, rel => if f.1 = rel then some f.2 else lookupFile fs rel

/-- Modelled from the spec: a plain static file server whose serving root
is the artifact root (GitHub Pages at the site root, or the nginx `root`
directory).  A request URI `/rel` resolves to the file at `rel` in the
artifact tree; anything else is a miss (HTTP 404). -/
def serveAtRoot (art : BuildArtifact) (uri : Str) : Option (List Nat) :=
  match uri with
  | '/' :: rest => lookupFile art.files rest
  | _ => none

/-! ## The nginx production server, transcribed from `docker/nginx.conf`
as recorded in the README -/

/-- One target of an nginx `try_files` directive: the request URI itself,
or a fixed fallback URI. -/
inductive TryTarget where
  | requestUri
  | fixed (p : Str)
deriving DecidableEq, Repr

/-- The `server` block of `docker/nginx.conf`. -/
structure NginxServerConfig where
  listen : Nat
  serverName : Str
  root : Str
  index : Str
  tryFiles : List TryTarget
deriving DecidableEq, Repr

/-- The shipped nginx configuration: listen 80, root
`/usr/share/nginx/html`, `try_files $uri /index.html`. -/
def nginxConf : NginxServerConfig :=
  { listen := 80
  , serverName := str "localhost"
  , root := str "/usr/share/nginx/html"
  , index := str "index.html"
  , tryFiles := [TryTarget.requestUri, TryTarget.fixed (str "/index.html")] }

/-- An HTTP response: status code and optional body. -/
structure HttpResult where
  status : Nat
  body : Option (List Nat)
deriving DecidableEq, Repr

/-- Modelled from the spec: nginx `try_files` resolution against an
artifact deployed at the server root.  Targets are tried in order; a
target that names an existing file is served with 200; if no target
matches, the result is 404. -/
def resolveTryFiles (art : BuildArtifact) (uri : Str) : List TryTarget → HttpResult
  | [] => ⟨404, none⟩
  | TryTarget.requestUri :: rest =>
      match serveAtRoot art uri with
      | some c => ⟨200, some c⟩
      | none => resolveTryFiles art uri rest
  | TryTarget.fixed p :: rest =>
      match serveAtRoot art p with
      | some c => ⟨200, some c⟩
      | none => resolveTryFiles art uri rest

/-- Modelled from the spec: the nginx production server serving an
artifact copied into its root directory (`COPY --from=build /app/dist
/usr/share/nginx/html`). -/
def nginxServe (conf : NginxServerConfig) (art : BuildArtifact) (uri : Str) : HttpResult :=
  resolveTryFiles art uri conf.tryFiles

/-! ## Publishing to GitHub Pages (RemoteHostingArtifact) -/

/-- An immutable uploaded bundle on the remote hosting target. -/
structure PagesDeployment where
  files : List (Str × List Nat)
deriving DecidableEq, Repr

/-- The remote hosting target's state: the currently active (served)
deployment, if any. -/
structure PagesState where
  active : Option PagesDeployment
deriving DecidableEq, Repr

/-- The outcome of a publish attempt. -/
inductive PublishOutcome where
  | published
  | uploadFailure
deriving DecidableEq, Repr

/-- Modelled from the spec: uploading the artifact tree file by file.
`failAt = some k` simulates a transport failure after `k` files have been
transferred; a failed upload yields no bundle. -/
def uploadFiles : List (Str × List Nat) → Option Nat → Option (List (Str × List Nat))
  | _, some 0 => none
  | [], _ => some []
  | f :: fs, some (k + 1) => (uploadFiles fs (some k)).map (fun l => f :: l)
  | f :: fs, none => (uploadFiles fs none).map (fun l => f :: l)

/-- Modelled from the spec: the Pages publish step of the workflow
(`upload-pages-artifact` then `deploy-pages`): upload the whole bundle,
then atomically activate it; a mid-upload failure leaves the state
untouched. -/
def publishPages (st : PagesState) (art : BuildArtifact) (failAt : Option Nat) :
    PublishOutcome × PagesState :=
  match uploadFiles art.files failAt with
  | none => (PublishOutcome.uploadFailure, st)
  | some fs => (PublishOutcome.published, ⟨some ⟨fs⟩⟩)

/-! ## The dev server (development mode) -/

/-- How an attempted dev-server start ends: bound to a port, or process
exit with a status code. -/
inductive DevStart where
  | started (port : Nat)
  | exited (code : Nat)
deriving DecidableEq, Repr

/-- Modelled from the spec: starting development mode against an
environment where `inUse` tells which ports are already bound.  With
`strictPort` the server exits nonzero when the configured port is bound;
without it, it would silently pick a higher free port. -/
def startDev (cfg : ServerConfig) (inUse : Nat → Bool) : DevStart :=
  if inUse cfg.port then
    if cfg.strictPort then DevStart.exited 1
    else
      match (List.range 65536).find? (fun q => decide (cfg.port < q) && !(inUse q)) with
      | some q => DevStart.started q
      | none => DevStart.exited 1
  else DevStart.started cfg.port

/-! ## Dependency installation -/

/-- An npm install strategy: reproducible (`npm ci`, lockfile-driven) or
best-effort (`npm install`). -/
inductive InstallStrategy where
  | npmCi
  | npmInstall
deriving DecidableEq, Repr

/-- What the install step can observe about the checkout. -/
structure InstallContext where
  hasLockfile : Bool
deriving DecidableEq, Repr

/-- The observable outcome of the install step: which strategy ran,
whether it failed, and whether a strategy switch was logged. -/
structure InstallOutcome where
  strategy : InstallStrategy
  failed : Bool
  switchLogged : Bool
deriving DecidableEq, Repr

/-- The `npm ci` behaviour recorded in FAQ item 2: it fails when no
lockfile is present. -/
def npmCiStep (ctx : InstallContext) : InstallOutcome :=
  if ctx.hasLockfile then ⟨InstallStrategy.npmCi, false, false⟩
  else ⟨InstallStrategy.npmCi, true, false⟩

/-- The install step the repository ships: both the workflow
(`static.yml`, per the FAQ) and the Dockerfile `deps` stage run
`npm install` unconditionally, with no conditional on a lockfile and no
message recording the strategy choice. -/
def shippedInstall (_ctx : InstallContext) : InstallOutcome :=
  ⟨InstallStrategy.npmInstall, false, false⟩

/-! ## The Dockerfile, transcribed from the README -/

/-- A Dockerfile COPY directive: optional `--from` stage, source and
destination. -/
structure CopyDirective where
  fromStage : Option String
  src : String
  dst : String
deriving DecidableEq, Repr

/-- One named stage of the multi-stage Dockerfile. -/
structure DockerStage where
  name : String
  baseRef : String
  workdir : Option String
  copies : List CopyDirective
  runs : List String
  exposes : List Nat
  cmd : Option (List String)
deriving DecidableEq, Repr

/-- `FROM node:20-alpine AS base` / `WORKDIR /app`. -/
def baseStage : DockerStage :=
  { name := "base", baseRef := "node:20-alpine", workdir := some "/app"
  , copies := [], runs := [], exposes := [], cmd := none }

/-- `FROM base AS deps` / `COPY package.json ./` / `RUN npm install`. -/
def depsStage : DockerStage :=
  { name := "deps", baseRef := "base", workdir := none
  , copies := [⟨none, "package.json", "./"⟩]
  , runs := ["npm install"], exposes := [], cmd := none }

/-- `FROM deps AS dev` / `COPY . .` / `EXPOSE 5173` / `CMD npm run dev`. -/
def devStage : DockerStage :=
  { name := "dev", baseRef := "deps", workdir := none
  , copies := [⟨none, ".", "."⟩]
  , runs := [], exposes := [5173], cmd := some ["npm", "run", "dev"] }

/-- `FROM deps AS build` / `COPY . .` / `RUN npm run build`. -/
def buildStage : DockerStage :=
  { name := "build", baseRef := "deps", workdir := none
  , copies := [⟨none, ".", "."⟩]
  , runs := ["npm run build"], exposes := [], cmd := none }

/-- `FROM nginx:alpine AS prod` with the nginx config copy, the
`--from=build /app/dist` artifact copy, `EXPOSE 80` and the nginx CMD. -/
def prodStage : DockerStage :=
  { name := "prod", baseRef := "nginx:alpine", workdir := none
  , copies :=
      [ ⟨none, "docker/nginx.conf", "/etc/nginx/conf.d/default.conf"⟩
      , ⟨some "build", "/app/dist", "/usr/share/nginx/html"⟩ ]
  , runs := [], exposes := [80], cmd := some ["nginx", "-g", "daemon off;"] }

/-- The Dockerfile: its addressable stages in order. -/
def dockerfileStages : List DockerStage :=
  [baseStage, depsStage, devStage, buildStage, prodStage]

/-! ## Artifact serialization (byte identity of builds) -/

/-- The byte serialization of one artifact file: path bytes then content
bytes. -/
def serializeFile (f : Str × List Nat) : List Nat :=
  f.1.map Char.toNat ++ f.2

/-- The byte serialization of a whole build artifact. -/
def artifactBytes (art : BuildArtifact) : List Nat :=
  ((art.entryRefs.flatten).map Char.toNat) ++ (art.files.map serializeFile).flatten

/-! ## Helper lemmas on serving -/

theorem lookupFile_nil (rel : Str) : lookupFile [] rel = none := rfl

theorem lookupFile_cons (f : Str × List Nat) (fs : List (Str × List Nat)) (rel : Str) :
    lookupFile (f :: fs) rel = if f.1 = rel then some f.2 else lookupFile fs rel := rfl

/-- Every emitted asset path begins with the `assets/` directory. -/
theorem hashedPath_head (a : Asset) : (hashedPath a).head? = some 'a' := rfl

/-- A request whose root-relative path starts with neither `index.html`
nor the `assets/` directory misses every file of a build artifact. -/
theorem lookupFile_build_none (g : SourceGraph) (p rest : Str)
    (hi : rest.head? ≠ some 'i') (ha : rest.head? ≠ some 'a') :
    lookupFile (build g p).files rest = none := by
  have h1 : ¬(str "index.html" = rest) := fun h => hi (by rw [← h]; rfl)
  show lookupFile ((str "index.html", entryDocBytes g p)
      :: g.assets.map (fun a => (hashedPath a, a.content))) rest = none
  rw [lookupFile_cons, if_neg h1]
  clear h1 hi
  induction g.assets with
  | nil => rfl
  | cons a as ih =>
      have h2 : ¬(hashedPath a = rest) := fun h => ha (by rw [← h]; rfl)
      rw [List.map_cons, lookupFile_cons, if_neg h2]
      exact ih

/-- Serving a non-root-built artifact at the site root: an asset reference
`('/' :: q) ++ hashedPath a` misses every file of the artifact whenever
the stripped path starts with neither `i` nor `a`. -/
theorem serveAtRoot_build_assetRef_none (g : SourceGraph) (q : Str) (a : Asset)
    (hi : (q ++ hashedPath a).head? ≠ some 'i')
    (ha : (q ++ hashedPath a).head? ≠ some 'a') :
    serveAtRoot (build g ('/' :: q)) (assetRef ('/' :: q) a) = none := by
  show lookupFile (build g ('/' :: q)).files (q ++ hashedPath a) = none
  exact lookupFile_build_none g _ _ hi ha

/-! ## Helper lemmas on content hashing -/

/-- The fuel-bounded decimal renderer agrees with the big-endian decimal
digit sequence whenever the fuel covers the number. -/
theorem natCharsAux_eq : ∀ (fuel n : Nat), n ≤ fuel →
    natCharsAux fuel n = ((Nat.digits 10 n).reverse).map Nat.digitChar := by
  intro fuel
  induction fuel with
  | zero =>
      intro n hn
      have h0 : n = 0 := Nat.le_zero.mp hn
      subst h0
      simp [natCharsAux]
  | succ fuel ih =>
      intro n hn
      cases n with
      | zero => simp [natCharsAux]
      | succ m =>
          have hdiv : (m + 1) / 10 ≤ fuel := by
            have hlt : (m + 1) / 10 < m + 1 := Nat.div_lt_self (Nat.succ_pos m) (by norm_num)
            omega
          have hdig : Nat.digits 10 (m + 1)
              = (m + 1) % 10 :: Nat.digits 10 ((m + 1) / 10) :=
            Nat.digits_def' (by norm_num) (Nat.succ_pos m)
          show natCharsAux fuel ((m + 1) / 10) ++ [Nat.digitChar ((m + 1) % 10)]
              = ((Nat.digits 10 (m + 1)).reverse).map Nat.digitChar
          rw [ih _ hdiv, hdig, List.reverse_cons, List.map_append]
          rfl

/-- `Nat.digitChar` is injective on decimal digits. -/
theorem digitChar_inj_lt :
    ∀ a, a < 10 → ∀ b, b < 10 → Nat.digitChar a = Nat.digitChar b → a = b := by
  decide

/-- Mapping `Nat.digitChar` over decimal digit lists is injective. -/
theorem map_digitChar_inj : ∀ (l₁ l₂ : List Nat),
    (∀ d ∈ l₁, d < 10) → (∀ d ∈ l₂, d < 10) →
    l₁.map Nat.digitChar = l₂.map Nat.digitChar → l₁ = l₂ := by
  intro l₁
  induction l₁ with
  | nil =>
      intro l₂ _ _ h
      cases l₂ with
      | nil => rfl
      | cons e es => simp at h
  | cons d ds ih =>
      intro l₂ h₁ h₂ h
      cases l₂ with
      | nil => simp at h
      | cons e es =>
          simp only [List.map_cons, List.cons.injEq] at h
          have hd : d = e :=
            digitChar_inj_lt d (h₁ d (List.mem_cons_self d ds))
              e (h₂ e (List.mem_cons_self e es)) h.1
          have ht : ds = es :=
            ih es (fun x hx => h₁ x (List.mem_cons_of_mem d hx))
              (fun x hx => h₂ x (List.mem_cons_of_mem e hx)) h.2
          rw [hd, ht]

/-- The decimal rendering of a natural number is injective. -/
theorem natChars_inj {m n : Nat} (h : natChars m = natChars n) : m = n := by
  unfold natChars at h
  rw [natCharsAux_eq m m (Nat.le_refl m), natCharsAux_eq n n (Nat.le_refl n)] at h
  have hm : ∀ d ∈ (Nat.digits 10 m).reverse, d < 10 := fun d hd =>
    Nat.digits_lt_base (by norm_num) (List.mem_reverse.mp hd)
  have hn : ∀ d ∈ (Nat.digits 10 n).reverse, d < 10 := fun d hd =>
    Nat.digits_lt_base (by norm_num) (List.mem_reverse.mp hd)
  have hrev := map_digitChar_inj _ _ hm hn h
  have hdig : Nat.digits 10 m = Nat.digits 10 n := List.reverse_inj.mp hrev
  rw [← Nat.ofDigits_digits 10 m, ← Nat.ofDigits_digits 10 n, hdig]

/-- The content hash is injective: distinct contents get distinct
hashes. -/
theorem contentHash_inj {c₁ c₂ : List Nat} (h : contentHash c₁ = contentHash c₂) :
    c₁ = c₂ :=
  Encodable.encode_injective h

/-- The emitted filename determines the asset content, for a fixed
logical name. -/
theorem hashedFileName_content_inj (stem ext : Str) (c₁ c₂ : List Nat)
    (h : hashedFileName ⟨stem, ext, c₁⟩ = hashedFileName ⟨stem, ext, c₂⟩) :
    c₁ = c₂ := by
  unfold hashedFileName at h
  have h1 := List.append_cancel_right h
  have h2 := List.append_cancel_left h1
  exact contentHash_inj (natChars_inj h2)

/-! ## Helper lemmas on publishing -/

/-- A simulated failure point within the bundle aborts the upload. -/
theorem uploadFiles_fail : ∀ (files : List (Str × List Nat)) (k : Nat),
    k ≤ files.length → uploadFiles files (some k) = none := by
  intro files
  induction files with
  | nil =>
      intro k hk
      have h0 : k = 0 := Nat.le_zero.mp hk
      subst h0
      rfl
  | cons f fs ih =>
      intro k hk
      cases k with
      | zero => rfl
      | succ k =>
          show (uploadFiles fs (some k)).map (fun l => f :: l) = none
          rw [ih k (Nat.succ_le_succ_iff.mp hk)]
          rfl

/-- An upload with no failure point transfers the whole bundle. -/
theorem uploadFiles_complete : ∀ (files : List (Str × List Nat)),
    uploadFiles files none = some files := by
  intro files
  induction files with
  | nil => rfl
  | cons f fs ih =>
      show (uploadFiles fs none).map (fun l => f :: l) = some (f :: fs)
      rw [ih]
      rfl

/-- Every asset reference of a build under the shipped `base` misses every
file of the artifact when the artifact is served at the site root. -/
theorem serve_viteBase_at_root_none (g : SourceGraph) (a : Asset) :
    serveAtRoot (build g viteBase) (assetRef viteBase a) = none := by
  have e : viteBase = '/' :: str "simple-react-app-vite-docker/" := rfl
  rw [e]
  refine serveAtRoot_build_assetRef_none g _ a ?_ ?_
  · rw [show (str "simple-react-app-vite-docker/" ++ hashedPath a).head?
        = some 's' from rfl]
    decide
  · rw [show (str "simple-react-app-vite-docker/" ++ hashedPath a).head?
        = some 's' from rfl]
    decide

/-! ## Claim C1 -/

/-- Claim C1: for every mount path `p` and every asset `a` in a production
build with prefix `p`, every reference to `a` in the entry document is
prefixed with exactly `p` (the reference is the literal concatenation of
`p` with the emitted path, which itself starts with no slash) and names a
file that exists in the artifact tree with exactly `a`'s content;
conversely every reference in the entry document arises this way. -/
theorem c1_entry_refs_prefixed_and_resolve (p : Str) (g : SourceGraph) :
    (∀ a ∈ g.assets,
        assetRef p a ∈ (build g p).entryRefs ∧
        assetRef p a = p ++ hashedPath a ∧
        (hashedPath a).head? = some 'a' ∧
        ∃ f ∈ (build g p).files, f.1 = hashedPath a ∧ f.2 = a.content) ∧
    (∀ r ∈ (build g p).entryRefs, ∃ a ∈ g.assets, r = p ++ hashedPath a) := by
  constructor
  · intro a ha
    refine ⟨List.mem_map_of_mem (assetRef p) ha, rfl, rfl,
      ⟨(hashedPath a, a.content), ?_, rfl, rfl⟩⟩
    exact List.mem_cons_of_mem _ (List.mem_map_of_mem _ ha)
  · intro r hr
    rcases List.mem_map.mp hr with ⟨a, ha, rfl⟩
    exact ⟨a, ha, rfl⟩

/-- Witness for C1: a one-asset graph built under the prefix `/r/`. -/
theorem c1_entry_refs_prefixed_and_resolve_witness :
    (assetRef (str "/r/") ⟨str "app", str ".js", [0, 1]⟩ ∈
        (build ⟨[⟨str "app", str ".js", [0, 1]⟩]⟩ (str "/r/")).entryRefs) ∧
    assetRef (str "/r/") ⟨str "app", str ".js", [0, 1]⟩
        = str "/r/" ++ hashedPath ⟨str "app", str ".js", [0, 1]⟩ ∧
    ∃ f ∈ (build ⟨[⟨str "app", str ".js", [0, 1]⟩]⟩ (str "/r/")).files,
        f.1 = hashedPath ⟨str "app", str ".js", [0, 1]⟩ ∧ f.2 = [0, 1] := by
  have h := (c1_entry_refs_prefixed_and_resolve (str "/r/")
      ⟨[⟨str "app", str ".js", [0, 1]⟩]⟩).1
      ⟨str "app", str ".js", [0, 1]⟩ (List.mem_singleton_self _)
  exact ⟨h.1, h.2.1, h.2.2.2⟩

/-! ## Claim C2 -/

/-- Claim C2: an artifact built with the non-root prefix `/my-app/` (and
likewise with the shipped `/simple-react-app-vite-docker/` prefix) served
at the site root: every asset reference in the entry document fails to
resolve (404), because the prefix is baked into the emitted references. -/
theorem c2_nonroot_prefix_served_at_root_404 (g : SourceGraph) :
    (∀ r ∈ (build g (str "/my-app/")).entryRefs,
        serveAtRoot (build g (str "/my-app/")) r = none) ∧
    (∀ r ∈ (build g viteBase).entryRefs,
        serveAtRoot (build g viteBase) r = none) := by
  constructor
  · intro r hr
    rcases List.mem_map.mp hr with ⟨a, _, rfl⟩
    have e : str "/my-app/" = '/' :: str "my-app/" := rfl
    rw [e]
    refine serveAtRoot_build_assetRef_none g (str "my-app/") a ?_ ?_
    · rw [show (str "my-app/" ++ hashedPath a).head? = some 'm' from rfl]
      decide
    · rw [show (str "my-app/" ++ hashedPath a).head? = some 'm' from rfl]
      decide
  · intro r hr
    rcases List.mem_map.mp hr with ⟨a, _, rfl⟩
    exact serve_viteBase_at_root_none g a

/-- Witness for C2: the reference emitted for a concrete asset under
`/my-app/` is a 404 at the root. -/
theorem c2_nonroot_prefix_served_at_root_404_witness :
    serveAtRoot (build ⟨[⟨str "app", str ".js", [2]⟩]⟩ (str "/my-app/"))
        (assetRef (str "/my-app/") ⟨str "app", str ".js", [2]⟩) = none :=
  (c2_nonroot_prefix_served_at_root_404 ⟨[⟨str "app", str ".js", [2]⟩]⟩).1 _
    (List.mem_map_of_mem _ (List.mem_singleton_self _))

/-! ## Claim C3 -/

/-- Claim C3: in the shipped configuration the build bakes the prefix
`/simple-react-app-vite-docker/` into every asset reference, while the
production container serves the artifact at the site root via nginx; so
every asset request generated from the entry document names a path
outside the serving root — the repository's own production container
exhibits the mount-path mismatch. -/
theorem c3_prod_container_mismatch (g : SourceGraph) :
    viteBase = str "/simple-react-app-vite-docker/" ∧
    viteBase ≠ str "/" ∧
    nginxConf.root = str "/usr/share/nginx/html" ∧
    nginxConf.listen = 80 ∧
    (∀ a ∈ g.assets,
        assetRef viteBase a ∈ (build g viteBase).entryRefs ∧
        serveAtRoot (build g viteBase) (assetRef viteBase a) = none) := by
  refine ⟨rfl, by decide, rfl, rfl, ?_⟩
  intro a ha
  exact ⟨List.mem_map_of_mem _ ha, serve_viteBase_at_root_none g a⟩

/-- Witness for C3: a concrete asset built under the shipped base misses
at the root. -/
theorem c3_prod_container_mismatch_witness :
    assetRef viteBase ⟨str "app", str ".js", [3]⟩ ∈
        (build ⟨[⟨str "app", str ".js", [3]⟩]⟩ viteBase).entryRefs ∧
    serveAtRoot (build ⟨[⟨str "app", str ".js", [3]⟩]⟩ viteBase)
        (assetRef viteBase ⟨str "app", str ".js", [3]⟩) = none :=
  (c3_prod_container_mismatch ⟨[⟨str "app", str ".js", [3]⟩]⟩).2.2.2.2 _
    (List.mem_singleton_self _)

/-! ## Claim C4 -/

/-- Claim C4: for every published artifact and every request path that
does not match a literal file of the artifact tree, the nginx serving
layer (`try_files $uri /index.html`) returns the entry document with
HTTP 200, never a 404. -/
theorem c4_spa_fallback_serves_entry (g : SourceGraph) (p uri : Str)
    (h : serveAtRoot (build g p) uri = none) :
    nginxServe nginxConf (build g p) uri = ⟨200, some (entryDocBytes g p)⟩ ∧
    (nginxServe nginxConf (build g p) uri).status ≠ 404 := by
  have hidx : serveAtRoot (build g p) (str "/index.html")
      = some (entryDocBytes g p) := by
    show lookupFile ((str "index.html", entryDocBytes g p)
        :: g.assets.map (fun a => (hashedPath a, a.content))) (str "index.html")
        = some (entryDocBytes g p)
    rw [lookupFile_cons, if_pos rfl]
  have main : nginxServe nginxConf (build g p) uri
      = ⟨200, some (entryDocBytes g p)⟩ := by
    show resolveTryFiles (build g p) uri
        [TryTarget.requestUri, TryTarget.fixed (str "/index.html")]
        = ⟨200, some (entryDocBytes g p)⟩
    rw [show resolveTryFiles (build g p) uri
          [TryTarget.requestUri, TryTarget.fixed (str "/index.html")]
        = (match serveAtRoot (build g p) uri with
           | some c => (⟨200, some c⟩ : HttpResult)
           | none => resolveTryFiles (build g p) uri
               [TryTarget.fixed (str "/index.html")])
        from rfl, h]
    show resolveTryFiles (build g p) uri [TryTarget.fixed (str "/index.html")]
        = ⟨200, some (entryDocBytes g p)⟩
    rw [show resolveTryFiles (build g p) uri [TryTarget.fixed (str "/index.html")]
        = (match serveAtRoot (build g p) (str "/index.html") with
           | some c => (⟨200, some c⟩ : HttpResult)
           | none => resolveTryFiles (build g p) uri [])
        from rfl, hidx]
  refine ⟨main, ?_⟩
  rw [main]
  show (200 : Nat) ≠ 404
  decide

/-- Witness for C4: the non-file route `/about` against a concrete
root-built artifact is answered with the entry document and 200. -/
theorem c4_spa_fallback_serves_entry_witness :
    serveAtRoot (build ⟨[⟨str "app", str ".js", [4]⟩]⟩ (str "/")) (str "/about")
        = none ∧
    nginxServe nginxConf (build ⟨[⟨str "app", str ".js", [4]⟩]⟩ (str "/"))
        (str "/about")
      = ⟨200, some (entryDocBytes ⟨[⟨str "app", str ".js", [4]⟩]⟩ (str "/"))⟩ :=
  ⟨by decide,
   (c4_spa_fallback_serves_entry ⟨[⟨str "app", str ".js", [4]⟩]⟩ (str "/")
      (str "/about") (by decide)).1⟩

/-! ## Claim C5 -/

/-- Claim C5: a publish to the remote hosting target becomes live only
after the full upload succeeds: a simulated failure mid-upload reports an
upload failure and leaves the previously active deployment exactly as it
was (so a partially uploaded bundle is never served), while a complete
upload atomically activates the whole bundle. -/
theorem c5_atomic_publish (st : PagesState) (art : BuildArtifact) (k : Nat)
    (hk : k ≤ art.files.length) :
    publishPages st art (some k) = (PublishOutcome.uploadFailure, st) ∧
    (publishPages st art (some k)).2.active = st.active ∧
    publishPages st art none = (PublishOutcome.published, ⟨some ⟨art.files⟩⟩) := by
  have hfail : uploadFiles art.files (some k) = none := uploadFiles_fail art.files k hk
  have h1 : publishPages st art (some k) = (PublishOutcome.uploadFailure, st) := by
    show (match uploadFiles art.files (some k) with
      | none => (PublishOutcome.uploadFailure, st)
      | some fs => (PublishOutcome.published, (⟨some ⟨fs⟩⟩ : PagesState)))
        = (PublishOutcome.uploadFailure, st)
    rw [hfail]
  have h2 : publishPages st art none
      = (PublishOutcome.published, ⟨some ⟨art.files⟩⟩) := by
    show (match uploadFiles art.files none with
      | none => (PublishOutcome.uploadFailure, st)
      | some fs => (PublishOutcome.published, (⟨some ⟨fs⟩⟩ : PagesState)))
        = (PublishOutcome.published, ⟨some ⟨art.files⟩⟩)
    rw [uploadFiles_complete]
  exact ⟨h1, by rw [h1], h2⟩

/-- Witness for C5: a failure after one of one files leaves a concrete
previously active deployment untouched, and the failure-free run activates
the new bundle. -/
theorem c5_atomic_publish_witness :
    publishPages ⟨some ⟨[(str "old.js", [9])]⟩⟩
        ⟨[], [(str "index.html", [1])]⟩ (some 1)
      = (PublishOutcome.uploadFailure, ⟨some ⟨[(str "old.js", [9])]⟩⟩) ∧
    publishPages ⟨some ⟨[(str "old.js", [9])]⟩⟩
        ⟨[], [(str "index.html", [1])]⟩ none
      = (PublishOutcome.published, ⟨some ⟨[(str "index.html", [1])]⟩⟩) :=
  ⟨(c5_atomic_publish ⟨some ⟨[(str "old.js", [9])]⟩⟩
      ⟨[], [(str "index.html", [1])]⟩ 1 (by decide)).1,
   (c5_atomic_publish ⟨some ⟨[(str "old.js", [9])]⟩⟩
      ⟨[], [(str "index.html", [1])]⟩ 1 (by decide)).2.2⟩

/-! ## Claim C6 -/

/-- Claim C6: when strict-port is requested (as the shipped
`vite.config.js` does), starting development mode while the configured
port is already bound exits with a nonzero status instead of silently
starting on a different port. -/
theorem c6_strict_port_exits_nonzero (cfg : ServerConfig) (inUse : Nat → Bool)
    (hstrict : cfg.strictPort = true) (hbound : inUse cfg.port = true) :
    viteServer.strictPort = true ∧
    startDev cfg inUse = DevStart.exited 1 ∧ (1 : Nat) ≠ 0 := by
  refine ⟨rfl, ?_, by decide⟩
  simp [startDev, hbound, hstrict]

/-- Witness for C6: the shipped configuration with its port 5173 already
bound. -/
theorem c6_strict_port_exits_nonzero_witness :
    viteServer.strictPort = true ∧
    startDev viteServer (fun _ => true) = DevStart.exited 1 ∧ (1 : Nat) ≠ 0 :=
  c6_strict_port_exits_nonzero viteServer (fun _ => true) rfl rfl

/-! ## Claim C7 -/

/-- Claim C7, counterexample: the shipped Dockerfile has five addressable
build stages — `base`, `deps`, `dev`, `build`, `prod` — not exactly three
as claimed; in particular the production role is split between the
`build` stage (which runs the build) and the `prod` stage (which copies
the artifact). -/
theorem c7_three_stages_counterexample :
    dockerfileStages.map DockerStage.name = ["base", "deps", "dev", "build", "prod"] ∧
    dockerfileStages.length = 5 ∧
    dockerfileStages.length ≠ 3 :=
  ⟨rfl, rfl, by decide⟩

/-- Claim C7 amended: the container image configuration produces five
addressable build stages; among them `deps` is the dependency-only layer,
`dev` is the development-runtime layer (exposes the dev port 5173, runs
`dev`), and production is split across the `build` stage (runs the
production build) and the `prod` stage, which copies only the built
artifact out of `build` into a minimal nginx static-file-serving image
exposing port 80. -/
theorem c7_five_stage_dockerfile :
    dockerfileStages = [baseStage, depsStage, devStage, buildStage, prodStage] ∧
    depsStage.baseRef = "base" ∧
    depsStage.copies = [⟨none, "package.json", "./"⟩] ∧
    depsStage.runs = ["npm install"] ∧
    depsStage.cmd = none ∧
    devStage.baseRef = "deps" ∧
    devStage.exposes = [5173] ∧
    devStage.cmd = some ["npm", "run", "dev"] ∧
    buildStage.baseRef = "deps" ∧
    buildStage.runs = ["npm run build"] ∧
    prodStage.baseRef = "nginx:alpine" ∧
    prodStage.copies = [⟨none, "docker/nginx.conf", "/etc/nginx/conf.d/default.conf"⟩,
      ⟨some "build", "/app/dist", "/usr/share/nginx/html"⟩] ∧
    prodStage.exposes = [80] ∧
    prodStage.runs = [] ∧
    prodStage.cmd = some ["nginx", "-g", "daemon off;"] :=
  ⟨rfl, rfl, rfl, rfl, rfl, rfl, rfl, rfl, rfl, rfl, rfl, rfl, rfl, rfl, rfl⟩

/-! ## Claim C8 -/

/-- Claim C8, counterexample: with no lockfile present the shipped install
step takes the non-reproducible `npm install` fallback and succeeds, yet
logs no strategy switch — contradicting the claim that the switch is
logged, not silent.  (The `npm ci` strategy would have failed, as FAQ
item 2 records.) -/
theorem c8_silent_fallback_counterexample :
    (shippedInstall ⟨false⟩).strategy = InstallStrategy.npmInstall ∧
    (shippedInstall ⟨false⟩).failed = false ∧
    (shippedInstall ⟨false⟩).switchLogged = false ∧
    (npmCiStep ⟨false⟩).failed = true :=
  ⟨rfl, rfl, rfl, rfl⟩

/-- Claim C8 amended: dependency installation does not fail when no
lockfile is present, because the shipped configuration hardcodes the
non-reproducible `npm install` fallback; the strategy switch is implicit
and is not logged. -/
theorem c8_fallback_configured_but_silent (ctx : InstallContext) :
    (shippedInstall ctx).strategy = InstallStrategy.npmInstall ∧
    (shippedInstall ctx).failed = false ∧
    (shippedInstall ctx).switchLogged = false :=
  ⟨rfl, rfl, rfl⟩

/-! ## Claim C9 -/

/-- Claim C9: building the same source graph with the same mount path
twice (with identical dependency versions, which the model fixes) yields
byte-identical artifacts. -/
theorem c9_build_idempotent (g₁ g₂ : SourceGraph) (p₁ p₂ : Str)
    (hg : g₁ = g₂) (hp : p₁ = p₂) :
    artifactBytes (build g₁ p₁) = artifactBytes (build g₂ p₂) ∧
    build g₁ p₁ = build g₂ p₂ := by
  subst hg
  subst hp
  exact ⟨rfl, rfl⟩

/-- Witness for C9: two builds of a concrete graph and prefix are
byte-identical. -/
theorem c9_build_idempotent_witness :
    artifactBytes (build ⟨[⟨str "app", str ".js", [5]⟩]⟩ (str "/"))
      = artifactBytes (build ⟨[⟨str "app", str ".js", [5]⟩]⟩ (str "/")) :=
  (c9_build_idempotent ⟨[⟨str "app", str ".js", [5]⟩]⟩
    ⟨[⟨str "app", str ".js", [5]⟩]⟩ (str "/") (str "/") rfl rfl).1

/-! ## Claim C10 -/

/-- Claim C10: modifying the asset's content — in particular any single
byte of it — changes its emitted filename, and an asset whose content is
unmodified keeps exactly the same emitted filename. -/
theorem c10_content_hash_invariant (a : Asset) (i b : Nat)
    (hi : i < a.content.length) (hb : b ≠ a.content.get ⟨i, hi⟩) :
    (∀ c : List Nat, c ≠ a.content →
        hashedFileName ⟨a.stem, a.ext, c⟩ ≠ hashedFileName a) ∧
    hashedFileName ⟨a.stem, a.ext, a.content.set i b⟩ ≠ hashedFileName a ∧
    (∀ c : List Nat, c = a.content →
        hashedFileName ⟨a.stem, a.ext, c⟩ = hashedFileName a) := by
  have hgen : ∀ c : List Nat, c ≠ a.content →
      hashedFileName ⟨a.stem, a.ext, c⟩ ≠ hashedFileName a := by
    intro c hc hEq
    exact hc (hashedFileName_content_inj a.stem a.ext c a.content hEq)
  refine ⟨hgen, ?_, ?_⟩
  · apply hgen
    intro hset
    have hlen : i < (a.content.set i b).length := by simpa using hi
    have e1 : (a.content.set i b)[i]? = some b := by
      rw [List.getElem?_eq_getElem hlen, List.getElem_set_self hlen]
    have e2 : (a.content)[i]? = some (a.content.get ⟨i, hi⟩) := by
      rw [List.getElem?_eq_getElem hi, List.get_eq_getElem]
    have e3 : some b = some (a.content.get ⟨i, hi⟩) := by
      rw [← e1, ← e2, hset]
    exact hb (Option.some_inj.mp e3)
  · intro c hc
    subst hc
    rfl

/-- Witness for C10: changing byte 0 of a concrete two-byte asset changes
its emitted filename. -/
theorem c10_content_hash_invariant_witness :
    hashedFileName ⟨str "app", str ".js", List.set [5, 6] 0 9⟩
      ≠ hashedFileName ⟨str "app", str ".js", [5, 6]⟩ :=
  (c10_content_hash_invariant ⟨str "app", str ".js", [5, 6]⟩ 0 9
    (by decide) (by decide)).2.1

end ViteApp
